import Mathlib

/-!
Verification development for the aiohttp transport adapter
(`httpx/_transports/aiohttp.py`): a shallow embedding of the
`AioHTTPTransport` construction path (the Connector Configurator), the
request/response bridge (`handle_async_request`, `AsyncResponseStream`),
and the session lifecycle state (`__aenter__` / `handle_async_request` /
`aclose`), together with theorems settling the specified properties.

Conventions of the embedding:
* Python `None` is `Option.none`; fallible code returns `Except`.
* Byte strings are modelled as `String` where only carried, and as
  `List Nat` (ASCII code points) where the source byte-encodes.
* The aiohttp engine itself is an external collaborator: a request
  dispatch is a parameter `engine : EngineCall → EngineResult`, and the
  engine exception hierarchy is embedded only as far as the `isinstance`
  checks of the source require.
-/

namespace HttpxAiohttp

/-- Modelled from the spec: connection limits of the TransportConfig
(`max total connections, max idle/keepalive connections, idle-connection
time-to-live`); the `Limits` class itself is repository code outside the
given sources. An absent cap is `none`. The time-to-live is carried, never
computed with, so it is modelled as a natural number of seconds. -/
structure Limits where
  max_connections : Option Nat
  max_keepalive_connections : Option Nat
  keepalive_expiry : Option Nat
deriving DecidableEq

/-- Modelled from the spec: a URL as far as the transport inspects it — a
scheme plus the remainder; `str(url)` renders `scheme://rest`. -/
structure Url where
  scheme : String
  rest : String
deriving DecidableEq

/-- Rendering of a URL, standing for Python `str(proxy.url)`. -/
def urlStr (u : Url) : String := u.scheme ++ "://" ++ u.rest

/-- Modelled from the spec: a ProxyDescriptor is a URL plus an optional
header mapping; `proxy.headers.items()` yields the ordered pairs. -/
structure Proxy where
  url : Url
  headers : List (String × String)
deriving DecidableEq

/-- Modelled from the spec: the TLS-context factory is an external
collaborator mapping `(verify, cert, trust_env)` to a context; the context
is recorded as its resolved inputs. The source's `verify` may also be a
path or a prebuilt context; no claim discriminates, so a boolean carries
the policy here. -/
structure SslContext where
  verify : Bool
  cert : Option String
  trust_env : Bool
deriving DecidableEq

/-- Embedding of `create_ssl_context(verify=..., cert=..., trust_env=...)`
as the collaborator that packages its inputs. -/
def create_ssl_context (verify : Bool) (cert : Option String)
    (trust_env : Bool) : SslContext :=
  ⟨verify, cert, trust_env⟩

/-- Semantics of the Python built-in `dict(pairs)`: keys keep the position
of their first occurrence, and a later pair with the same key overwrites
the stored value. -/
def dictInsert (acc : List (String × String)) (kv : String × String) :
    List (String × String) :=
  if acc.any (fun q => q.1 == kv.1) then
    acc.map (fun q => if q.1 == kv.1 then (q.1, kv.2) else q)
  else
    acc ++ [kv]

/-- Python `dict(pairs)` over an ordered pair sequence. -/
def pythonDict (ps : List (String × String)) : List (String × String) :=
  ps.foldl dictInsert []

/-- The keyword arguments the source assembles for the engine connector
constructor (`connector_kwargs`, lines 79-98 of the source).

Field conventions: `ssl`, `limit`, `enable_cleanup_closed`, `force_close`,
`limit_per_host` and `ttl_dns_cache` are always passed; for these, `none`
is the Python value `None` passed explicitly. `proxy` and `proxy_headers`
are only conditionally inserted into the dict; for these, `none` means the
key is absent. `keepalive_timeout` is the engine connector's
idle-connection time-to-live parameter (modelled from the spec's "idle
TTL" engine connector field, distinct from the DNS-cache time-to-live
`ttl_dns_cache`); the source never sets it, so it is always `none`,
meaning absent and left at the engine default. -/
structure ConnectorKwargs where
  ssl : SslContext
  limit : Option Nat
  enable_cleanup_closed : Bool
  force_close : Bool
  limit_per_host : Option Nat
  ttl_dns_cache : Option Nat
  proxy : Option String
  proxy_headers : Option (List (String × String))
  keepalive_timeout : Option Nat
deriving DecidableEq

/-- The unconditional part of `connector_kwargs` (source lines 79-86). -/
def connector_kwargs_base (ssl_context : SslContext) (limits : Limits) :
    ConnectorKwargs :=
  { ssl := ssl_context
    limit := limits.max_connections
    enable_cleanup_closed := true
    force_close := false
    limit_per_host := limits.max_keepalive_connections
    ttl_dns_cache := limits.keepalive_expiry
    proxy := none
    proxy_headers := none
    keepalive_timeout := none }

/-- Construction-time failures of `AioHTTPTransport.__init__`: the
`ValueError` for a non-HTTP proxy scheme and the `ImportError` for the
missing HTTP/2 extension. Both are raised synchronously at construction,
so both are configuration errors in the spec's taxonomy. -/
inductive InitError where
  | valueError (msg : String)
  | importError (msg : String)
deriving DecidableEq

/-- The `ValueError` message of source lines 95-98; the Python f-string
interpolates the offending scheme. -/
def proxy_error_message (scheme : String) : String :=
  "AioHTTPTransport only supports HTTP proxies, not " ++ scheme ++ "."

/-- The `ImportError` message of source lines 106-109. -/
def http2_import_error_message : String :=
  "Using HTTP/2 with aiohttp requires aiohttp_http2 to be installed. " ++
  "Install it with `pip install aiohttp_http2`."

/-- Proxy handling of `__init__` (source lines 88-98): an `http`/`https`
proxy URL is injected into the connector kwargs, with
`dict(proxy.headers.items())` injected as well when the header mapping is
non-empty (Python truthiness of `proxy.headers`); any other scheme raises
`ValueError` naming the scheme. -/
def apply_proxy (ck : ConnectorKwargs) (proxy : Option Proxy) :
    Except InitError ConnectorKwargs :=
  match proxy with
  | none => .ok ck
  | some p =>
      if p.url.scheme = "http" ∨ p.url.scheme = "https" then
        let ck1 : ConnectorKwargs := { ck with proxy := some (urlStr p.url) }
        .ok (if p.headers.isEmpty then ck1
             else { ck1 with proxy_headers := some (pythonDict p.headers) })
      else
        .error (.valueError (proxy_error_message p.url.scheme))

/-- The transport object as constructed (source lines 100-119): the
connector kwargs, which connector class was selected, the session slot
(`self._session`, `None` at construction), and the `trust_env` flag kept
for the session kwargs. Sessions are identified by numbers (a counted test
double for `aiohttp.ClientSession`). -/
structure Transport where
  connector_kwargs : ConnectorKwargs
  http2_connector : Bool
  session : Option Nat
  trust_env : Bool
deriving DecidableEq

/-- Embedding of `AioHTTPTransport.__init__` (source lines 56-119).
`http2_available` models whether `import aiohttp_http2` succeeds in the
ambient runtime; `kwargs` are the extra keyword arguments swallowed by
`**kwargs`, which the body never reads. `http1` and `socket_options` are
accepted and unused, exactly as in the source. A `.error` result means
construction raised, so no transport object and no session ever exist and
no request can be attempted. -/
def AioHTTPTransport_init (verify : Bool) (cert : Option String)
    (trust_env : Bool) (http1 : Bool) (http2 : Bool) (limits : Limits)
    (proxy : Option Proxy) (socket_options : Option String)
    (http2_available : Bool) (kwargs : List (String × String)) :
    Except InitError Transport :=
  match apply_proxy
      (connector_kwargs_base (create_ssl_context verify cert trust_env) limits)
      proxy with
  | .error e => .error e
  | .ok ck =>
      if http2 then
        if http2_available then
          .ok { connector_kwargs := ck, http2_connector := true
                session := none, trust_env := trust_env }
        else
          .error (.importError http2_import_error_message)
      else
        .ok { connector_kwargs := ck, http2_connector := false
              session := none, trust_env := trust_env }

/-- Modelled from the spec: the caller's RequestEnvelope — method, target
URL, an ordered sequence of (name, value) header pairs (keys not
necessarily unique), and a body as a sequence of byte chunks.
`request.headers.items()` yields the ordered pair sequence. The `Request`
class itself is repository code outside the given sources. -/
structure Request where
  method : String
  url : String
  headers : List (String × String)
  stream : List String
deriving DecidableEq

/-- The arguments of the `self._session.request(...)` engine call as the
source assembles them (lines 141-161): `str(request.url)`, the method
text, `dict(request.headers.items())`, the request body chunks fed into an
`aiohttp.StreamReader` (the source feeds every chunk then `feed_eof`), and
`allow_redirects=False`. -/
structure EngineCall where
  method : String
  url : String
  headers : List (String × String)
  data : Option (List String)
  allow_redirects : Bool
deriving DecidableEq

/-- Request translation of `handle_async_request` (source lines 141-161):
everything computed before the engine is invoked. The source guards the
body feed with `hasattr(request.stream, "__aiter__")`, which holds for
every `AsyncByteStream`, so the chunk sequence is always fed. -/
def build_engine_call (r : Request) : EngineCall :=
  { method := r.method
    url := r.url
    headers := pythonDict r.headers
    data := some r.stream
    allow_redirects := false }

/-- The engine response as the source reads it (status, header pairs from
`aiohttp_response.headers.items()`, the content stream as byte chunks). -/
structure EngineResponse where
  status : Nat
  headers : List (String × String)
  content : List String
deriving DecidableEq

/-- ASCII byte-encoding of a header string (`.encode("ascii")`), as the
sequence of code points. -/
def ascii_encode (s : String) : List Nat := s.toList.map Char.toNat

/-- Modelled from the spec: the caller's ResponseEnvelope — integer status
code, ordered byte-encoded header pairs, and a lazy byte-chunk body. The
`Response` class itself is repository code outside the given sources; the
body is the engine content wrapped by `AsyncResponseStream`. -/
structure Response where
  status_code : Nat
  headers : List (List Nat × List Nat)
  stream : List String
deriving DecidableEq

/-- Response translation of `handle_async_request` (source lines 163-173):
status passed through, headers ASCII-encoded pairwise, content wrapped. -/
def translate_response (er : EngineResponse) : Response :=
  { status_code := er.status
    headers := er.headers.map (fun kv => (ascii_encode kv.1, ascii_encode kv.2))
    stream := er.content }

/-- The aiohttp exceptions the source distinguishes, each carrying its
`str(exc)` text. Only the classes named by the source's `isinstance`
checks are embedded; `otherClientError` stands for any other
`aiohttp.ClientError` subclass, and `asyncioTimeout` for
`asyncio.TimeoutError`. -/
inductive AioError where
  | clientConnectorError (msg : String)
  | clientOSError (msg : String)
  | serverDisconnectedError (msg : String)
  | clientResponseError (msg : String)
  | clientPayloadError (msg : String)
  | otherClientError (msg : String)
  | asyncioTimeout (msg : String)
deriving DecidableEq

/-- Python `str(exc)`. -/
def str_exc : AioError → String
  | .clientConnectorError m => m
  | .clientOSError m => m
  | .serverDisconnectedError m => m
  | .clientResponseError m => m
  | .clientPayloadError m => m
  | .otherClientError m => m
  | .asyncioTimeout m => m

/-- `isinstance(exc, aiohttp.ClientError)`: every embedded aiohttp error
class derives from `ClientError`; `asyncio.TimeoutError` does not. -/
def isClientError : AioError → Bool
  | .asyncioTimeout _ => false
  | _ => true

/-- `isinstance(exc, aiohttp.ClientConnectorError)`. -/
def isClientConnectorError : AioError → Bool
  | .clientConnectorError _ => true
  | _ => false

/-- `isinstance(exc, aiohttp.ClientOSError)`: in the aiohttp hierarchy
`ClientConnectorError` is a subclass of `ClientOSError`, so both
constructors satisfy this check. -/
def isClientOSError : AioError → Bool
  | .clientConnectorError _ => true
  | .clientOSError _ => true
  | _ => false

/-- `isinstance(exc, aiohttp.ServerDisconnectedError)`. -/
def isServerDisconnectedError : AioError → Bool
  | .serverDisconnectedError _ => true
  | _ => false

/-- `isinstance(exc, aiohttp.ClientResponseError)`. -/
def isClientResponseError : AioError → Bool
  | .clientResponseError _ => true
  | _ => false

/-- `isinstance(exc, aiohttp.ClientPayloadError)`. -/
def isClientPayloadError : AioError → Bool
  | .clientPayloadError _ => true
  | _ => false

/-- The caller's transport-error kinds used by this adapter. -/
inductive HttpxErrorKind where
  | connectError
  | networkError
  | remoteProtocolError
  | protocolError
  | readError
  | timeoutException
deriving DecidableEq

/-- A raised transport error: its kind, its message, and the original
engine error preserved as the cause (`raise ... from exc`). -/
structure HttpxError where
  kind : HttpxErrorKind
  message : String
  cause : AioError
deriving DecidableEq

/-- Error mapping of `handle_async_request` (source lines 175-190): the
`except aiohttp.ClientError` clause with its `isinstance` chain and
generic fallback, then the `except asyncio.TimeoutError` clause. Every
branch raises with `from exc`. -/
def map_request_error (exc : AioError) : HttpxError :=
  if isClientError exc then
    if isClientConnectorError exc then ⟨.connectError, str_exc exc, exc⟩
    else if isClientOSError exc then ⟨.networkError, str_exc exc, exc⟩
    else if isServerDisconnectedError exc then
      ⟨.remoteProtocolError, str_exc exc, exc⟩
    else if isClientResponseError exc then ⟨.protocolError, str_exc exc, exc⟩
    else if isClientPayloadError exc then ⟨.readError, str_exc exc, exc⟩
    else ⟨.networkError, str_exc exc, exc⟩
  else
    ⟨.timeoutException, str_exc exc, exc⟩

/-- Streaming error mapping of `AsyncResponseStream.__aiter__` (source
lines 41-49): any `aiohttp.ClientError` or `asyncio.TimeoutError` raised
while iterating the body is re-raised as `NetworkError(str(exc)) from
exc`. -/
def map_stream_error (exc : AioError) : HttpxError :=
  ⟨.networkError, str_exc exc, exc⟩

/-- Outcome of one engine dispatch (`self._session.request(...)`). -/
inductive EngineResult where
  | success (resp : EngineResponse)
  | failure (exc : AioError)
deriving DecidableEq

/-- The pure core of `handle_async_request` (source lines 134-190), with
the engine dispatch abstracted as a function from the assembled call to an
engine result. The session-slot mutation of lines 138-139 is modelled
separately on the runtime state (`ensure_session`). -/
def handle_async_request (engine : EngineCall → EngineResult)
    (r : Request) : Except HttpxError Response :=
  match engine (build_engine_call r) with
  | .success resp => .ok (translate_response resp)
  | .failure exc => .error (map_request_error exc)

/-- The mutable runtime state of a transport: the session slot
(`self._session`), a counter of `aiohttp.ClientSession` constructions (the
counted test double for session creation; the session id is the counter
value at creation), counters of `session.close()` and `connector.close()`
invocations, and whether `hasattr(self._connector, "close")` holds — it
does for `aiohttp.TCPConnector`, whose base class defines `close`. -/
structure RtState where
  session : Option Nat
  sessions_created : Nat
  session_close_calls : Nat
  connector_close_calls : Nat
  connector_has_close : Bool
deriving DecidableEq

/-- A freshly constructed transport backed by a `TCPConnector`: no
session, no creations, no closes. -/
def fresh_transport_state : RtState :=
  { session := none
    sessions_created := 0
    session_close_calls := 0
    connector_close_calls := 0
    connector_has_close := true }

/-- The session-creation step of `handle_async_request` (source lines
138-139) and of `__aenter__` (lines 121-124): `if self._session is None:
self._session = aiohttp.ClientSession(**self._session_kwargs)`. There is
no `await` between the check and the assignment and
`aiohttp.ClientSession.__init__` is synchronous, so under the cooperative
(asyncio) scheduling model this whole step is one atomic block: concurrent
tasks interleave only at suspension points, hence any interleaving of two
first calls executes the two blocks in some sequential order. Returns the
new state and the session id the caller observes (the value of
`self._session` it proceeds with). -/
def ensure_session (s : RtState) : RtState × Nat :=
  match s.session with
  | some sid => (s, sid)
  | none =>
      ({ s with session := some s.sessions_created
                sessions_created := s.sessions_created + 1 },
       s.sessions_created)

/-- Two concurrent first calls, one atomic session-creation block each:
the only interleavings are the two sequential orders. Returns the final
state and the pair (observation of task A, observation of task B), where
`first_is_a` selects which task's block ran first. -/
def sched_two (first_is_a : Bool) (s : RtState) : RtState × Nat × Nat :=
  let step1 := ensure_session s
  let step2 := ensure_session step1.1
  if first_is_a then (step2.1, step1.2, step2.2)
  else (step2.1, step2.2, step1.2)

/-- Embedding of `aclose` (source lines 192-198): if a session exists,
`await self._session.close()` and clear the slot; then, unconditionally,
if the connector has a `close` attribute, `await self._connector.close()`.
Note the connector close is outside the session guard, so it runs on every
call. -/
def aclose (s : RtState) : RtState :=
  let s1 :=
    match s.session with
    | some _ =>
        { s with session := none
                 session_close_calls := s.session_close_calls + 1 }
    | none => s
  if s1.connector_has_close then
    { s1 with connector_close_calls := s1.connector_close_calls + 1 }
  else s1

/-! Concrete inputs used by counterexamples and witnesses. -/

/-- A request carrying two header pairs with the same name. -/
def duplicate_header_request : Request :=
  { method := "GET"
    url := "http://example.org/"
    headers := [("X-Test", "a"), ("X-Test", "b")]
    stream := [] }

/-- A transport state with a live session, a `TCPConnector`, and no close
calls yet. -/
def active_transport_state : RtState :=
  { session := some 0
    sessions_created := 1
    session_close_calls := 0
    connector_close_calls := 0
    connector_has_close := true }

/-- The limits httpx uses by default: 100 total connections, 20 keepalive
connections, 5 second keepalive expiry. -/
def example_limits : Limits :=
  { max_connections := some 100
    max_keepalive_connections := some 20
    keepalive_expiry := some 5 }

/-- Limits with every cap absent. -/
def no_cap_limits : Limits :=
  { max_connections := none
    max_keepalive_connections := none
    keepalive_expiry := none }

/-- The TLS context produced from the default construction arguments. -/
def example_ssl : SslContext := ⟨true, none, true⟩

/-- A proxy descriptor with an unsupported scheme. -/
def ftp_proxy_example : Proxy := ⟨⟨"ftp", "example.org"⟩, []⟩

/-- An HTTP proxy descriptor carrying one proxy header. -/
def http_proxy_example : Proxy := ⟨⟨"http", "proxy.local"⟩, [("Proxy-Auth", "x")]⟩

/-- An engine response representing a redirect: status 302 with a
`Location` header. -/
def redirect_302_response : EngineResponse :=
  ⟨302, [("Location", "http://example.org/next")], []⟩

/-- A plain request with no headers and no body. -/
def example_request : Request := ⟨"GET", "http://example.org/", [], []⟩

/-! Claim theorems. -/

/-- C1: On a freshly constructed transport, two concurrent first calls to
`handle_async_request` create exactly one session and both callers observe
the same completed session. The creation block (source lines 138-139) has
no suspension point between the `None` check and the assignment, so under
cooperative scheduling the two blocks run in one of the two sequential
orders; in either order one `ClientSession` is constructed, the slot holds
it, and both tasks proceed with the same session id. -/
theorem c1_exactly_one_session_on_concurrent_first_calls (first_is_a : Bool) :
    (sched_two first_is_a fresh_transport_state).1.sessions_created = 1 ∧
    (sched_two first_is_a fresh_transport_state).1.session = some 0 ∧
    (sched_two first_is_a fresh_transport_state).2.1
      = (sched_two first_is_a fresh_transport_state).2.2 := by
  cases first_is_a <;> exact ⟨rfl, rfl, rfl⟩

/-- C2 counterexample: for the request with header pairs
`[("X-Test", "a"), ("X-Test", "b")]`, the header structure passed to the
engine call does not preserve every (name, value) pair of the request —
`dict(request.headers.items())` cannot hold two pairs with the same name,
so the pair `("X-Test", "a")` is lost. -/
theorem c2_duplicate_headers_not_preserved :
    ¬ (∀ pair ∈ duplicate_header_request.headers,
        pair ∈ (build_engine_call duplicate_header_request).headers) := by
  decide

/-- C2 amended: `handle_async_request` flattens the request's ordered
header pairs through a Python `dict` keyed by header name before the
engine call, so duplicate names collapse to a single entry whose value is
the last pair's value: for `[(n, v1), (n, v2)]` the engine receives
exactly `[(n, v2)]`. -/
theorem c2_duplicate_headers_collapse_to_last (u n v1 v2 : String) :
    (build_engine_call ⟨"GET", u, [(n, v1), (n, v2)], []⟩).headers
      = [(n, v2)] := by
  simp [build_engine_call, pythonDict, dictInsert]

/-- C3 counterexample: calling `aclose` twice on a transport with a live
session and a `TCPConnector` invokes the connector's close routine twice,
not exactly once — the `self._connector.close()` call (source lines
197-198) sits outside the `if self._session is not None` guard, so it runs
on every call. -/
theorem c3_double_aclose_closes_connector_twice :
    ¬ ((aclose (aclose active_transport_state)).connector_close_calls = 1) := by
  decide

/-- C3 amended: for every transport whose connector has a close routine,
each of two sequential `aclose` calls invokes the connector's close
routine once — twice in total; only the session close is idempotent: the
second call performs no further session close, and the session slot is
already cleared after the first call. -/
theorem c3_connector_closed_once_per_aclose (s : RtState)
    (h : s.connector_has_close = true) :
    (aclose (aclose s)).connector_close_calls = s.connector_close_calls + 2 ∧
    (aclose (aclose s)).session_close_calls = (aclose s).session_close_calls ∧
    (aclose s).session = none := by
  rcases s with ⟨sess, a, b, c, hc⟩
  cases sess <;> simp_all [aclose]

/-- C3 witness: the amended statement evaluated on the concrete active
transport state. -/
theorem c3_connector_closed_once_per_aclose_witness :
    (aclose (aclose active_transport_state)).connector_close_calls = 2 ∧
    (aclose (aclose active_transport_state)).session_close_calls
      = (aclose active_transport_state).session_close_calls ∧
    (aclose active_transport_state).session = none :=
  c3_connector_closed_once_per_aclose active_transport_state rfl

/-- C8: after `aclose`, a subsequent `handle_async_request` transparently
re-opens a session, mirroring create-on-first-use: the closed transport's
session slot is `None` exactly as on a freshly constructed transport, so
the session-creation step constructs a new session and the request
proceeds with it instead of failing. -/
theorem c8_post_close_request_reopens_session (s : RtState) :
    (aclose s).session = none ∧
    (aclose s).session = fresh_transport_state.session ∧
    (ensure_session (aclose s)).1.session
      = some ((aclose s).sessions_created) ∧
    (ensure_session (aclose s)).2 = (aclose s).sessions_created := by
  rcases s with ⟨sess, a, b, c, hc⟩
  cases sess <;> cases hc <;> exact ⟨rfl, rfl, rfl, rfl⟩

/-- Helper: `apply_proxy` on a supported proxy scheme injects the
rendered proxy URL, plus the dict of proxy headers when the header mapping
is non-empty. -/
theorem apply_proxy_supported_scheme (ck : ConnectorKwargs) (p : Proxy)
    (h : p.url.scheme = "http" ∨ p.url.scheme = "https") :
    apply_proxy ck (some p) =
      .ok (if p.headers.isEmpty
           then { ck with proxy := some (urlStr p.url) }
           else { ck with proxy := some (urlStr p.url)
                          proxy_headers := some (pythonDict p.headers) }) := by
  unfold apply_proxy
  dsimp only
  rw [if_pos h]

/-- C4: evaluation of the connector-kwargs construction at the default
limits (100 total, 20 keepalive, 5 second keepalive expiry) and at limits
with every cap absent. The code maps `max_connections` to `limit` and
`max_keepalive_connections` to `limit_per_host` and enables cleanup, but
it passes `keepalive_expiry` as `ttl_dns_cache` — the engine's DNS-cache
time-to-live — and never sets `keepalive_timeout`, the connector's
idle-connection time-to-live, which stays at the engine default; an absent
cap is passed through as `None` instead of the engine's explicit no-limit
sentinel `0`. -/
theorem c4_keepalive_expiry_lands_in_dns_cache_ttl :
    ((connector_kwargs_base example_ssl example_limits).ttl_dns_cache
      = some 5) ∧
    ((connector_kwargs_base example_ssl example_limits).keepalive_timeout
      = none) ∧
    ((connector_kwargs_base example_ssl example_limits).limit = some 100) ∧
    ((connector_kwargs_base example_ssl example_limits).limit_per_host
      = some 20) ∧
    ((connector_kwargs_base example_ssl example_limits).enable_cleanup_closed
      = true) ∧
    ((connector_kwargs_base example_ssl no_cap_limits).limit = none) ∧
    ((connector_kwargs_base example_ssl no_cap_limits).limit_per_host
      = none) ∧
    ((AioHTTPTransport_init true none true true false example_limits none none
        false []).map (fun t => t.connector_kwargs)
      = .ok (connector_kwargs_base example_ssl example_limits)) :=
  ⟨rfl, rfl, rfl, rfl, rfl, rfl, rfl, rfl⟩

/-- C5: a proxy whose URL scheme is neither `http` nor `https` makes
construction fail with the configuration `ValueError` whose message names
the offending scheme — so no transport object exists and no request can
ever be attempted — while for schemes `http` and `https` construction
succeeds and the rendered proxy URL, plus the proxy-header dict when the
header mapping is non-empty, are injected into the connector-construction
parameters. -/
theorem c5_proxy_scheme_validated_at_construction (p : Proxy) :
    (p.url.scheme ≠ "http" ∧ p.url.scheme ≠ "https" →
      ∀ verify cert trust_env http1 http2 limits socket_options avail kwargs,
        AioHTTPTransport_init verify cert trust_env http1 http2 limits (some p)
            socket_options avail kwargs
          = .error (.valueError (proxy_error_message p.url.scheme))) ∧
    ((p.url.scheme = "http" ∨ p.url.scheme = "https") →
      ∀ verify cert trust_env http1 limits socket_options avail kwargs,
        ((AioHTTPTransport_init verify cert trust_env http1 false limits
            (some p) socket_options avail kwargs).map
          (fun t => t.connector_kwargs.proxy) = .ok (some (urlStr p.url))) ∧
        (p.headers ≠ [] →
          (AioHTTPTransport_init verify cert trust_env http1 false limits
              (some p) socket_options avail kwargs).map
            (fun t => t.connector_kwargs.proxy_headers)
            = .ok (some (pythonDict p.headers))) ∧
        (p.headers = [] →
          (AioHTTPTransport_init verify cert trust_env http1 false limits
              (some p) socket_options avail kwargs).map
            (fun t => t.connector_kwargs.proxy_headers)
            = .ok none)) := by
  constructor
  · rintro ⟨h1, h2⟩ verify cert trust_env http1 http2 limits socket_options
      avail kwargs
    simp [AioHTTPTransport_init, apply_proxy, h1, h2]
  · intro h verify cert trust_env http1 limits socket_options avail kwargs
    rw [AioHTTPTransport_init, apply_proxy_supported_scheme _ _ h]
    by_cases hh : p.headers.isEmpty
    · rw [if_pos hh]
      have hnil : p.headers = [] := by simpa using hh
      exact ⟨rfl, fun hne => absurd hnil hne, fun _ => rfl⟩
    · rw [if_neg hh]
      have hne : p.headers ≠ [] := by simpa using hh
      exact ⟨rfl, fun _ => rfl, fun hnil => absurd hnil hne⟩

/-- C5 witness: the theorem evaluated at an `ftp` proxy (construction
fails, message names `ftp`) and at an `http` proxy with one header
(construction succeeds, URL and headers injected). -/
theorem c5_proxy_scheme_validated_at_construction_witness :
    (AioHTTPTransport_init true none true true false example_limits
        (some ftp_proxy_example) none false []
      = .error (.valueError (proxy_error_message "ftp"))) ∧
    ((AioHTTPTransport_init true none true true false example_limits
        (some http_proxy_example) none false []).map
      (fun t => t.connector_kwargs.proxy) = .ok (some "http://proxy.local")) ∧
    ((AioHTTPTransport_init true none true true false example_limits
        (some http_proxy_example) none false []).map
      (fun t => t.connector_kwargs.proxy_headers)
      = .ok (some [("Proxy-Auth", "x")])) :=
  ⟨(c5_proxy_scheme_validated_at_construction ftp_proxy_example).1
      ⟨by decide, by decide⟩ true none true true false example_limits none
      false [],
   ((c5_proxy_scheme_validated_at_construction http_proxy_example).2
      (Or.inl rfl) true none true true example_limits none false []).1,
   ((c5_proxy_scheme_validated_at_construction http_proxy_example).2
      (Or.inl rfl) true none true true example_limits none false []).2.1
      (by decide)⟩

/-- C6: with `http2=false` the construction result is independent of
whether the optional extension is available — the availability probe sits
inside `if http2:`, so it is never attempted; with `http2=true` and the
extension unavailable, any construction that passes proxy validation fails
with the `ImportError` whose message contains the install instruction
`pip install aiohttp_http2`; and every successfully constructed transport
has no session yet, so the failure happens before any session exists. -/
theorem c6_http2_extension_required_iff_http2 :
    (∀ verify cert trust_env limits proxy socket_options avail1 avail2 kwargs,
        AioHTTPTransport_init verify cert trust_env true false limits proxy
            socket_options avail1 kwargs
          = AioHTTPTransport_init verify cert trust_env true false limits proxy
              socket_options avail2 kwargs) ∧
    (∀ verify cert trust_env http1 limits proxy socket_options kwargs ck,
        apply_proxy (connector_kwargs_base
            (create_ssl_context verify cert trust_env) limits) proxy
          = .ok ck →
        AioHTTPTransport_init verify cert trust_env http1 true limits proxy
            socket_options false kwargs
          = .error (.importError http2_import_error_message)) ∧
    (∀ verify cert trust_env http1 http2 limits proxy socket_options avail
        kwargs t,
        AioHTTPTransport_init verify cert trust_env http1 http2 limits proxy
            socket_options avail kwargs = .ok t →
        t.session = none) ∧
    (http2_import_error_message
      = "Using HTTP/2 with aiohttp requires aiohttp_http2 to be installed. Install it with `"
        ++ "pip install aiohttp_http2" ++ "`.") := by
  refine ⟨?_, ?_, ?_, rfl⟩
  · intro verify cert trust_env limits proxy socket_options avail1 avail2
      kwargs
    rfl
  · intro verify cert trust_env http1 limits proxy socket_options kwargs ck h
    unfold AioHTTPTransport_init
    rw [h]
    rfl
  · intro verify cert trust_env http1 http2 limits proxy socket_options avail
      kwargs t h
    unfold AioHTTPTransport_init at h
    split at h
    · cases h
    · split at h
      · split at h
        · injection h with h2
          subst h2
          rfl
        · cases h
      · injection h with h2
        subst h2
        rfl

/-- C6 witness: the theorem evaluated at a concrete configuration —
`http2=true` with the extension unavailable fails with the install
message; `http2=false` gives the same transport whether or not the
extension is available; and the transport constructed with `http2=false`
has no session. -/
theorem c6_http2_extension_required_iff_http2_witness :
    (AioHTTPTransport_init true none true true true example_limits none none
        false [] = .error (.importError http2_import_error_message)) ∧
    (AioHTTPTransport_init true none true true false example_limits none none
        true []
      = AioHTTPTransport_init true none true true false example_limits none
          none false []) ∧
    ((Transport.mk (connector_kwargs_base example_ssl example_limits) false
        none true).session = none) :=
  ⟨c6_http2_extension_required_iff_http2.2.1 true none true true
      example_limits none none [] (connector_kwargs_base example_ssl
      example_limits) rfl,
   c6_http2_extension_required_iff_http2.1 true none true example_limits none
      none true false [],
   c6_http2_extension_required_iff_http2.2.2.1 true none true true false
      example_limits none none false []
      (Transport.mk (connector_kwargs_base example_ssl example_limits) false
        none true) rfl⟩

/-- C7: every engine error raised during `handle_async_request` is
re-raised as exactly one transport-error kind given by the `isinstance`
chain — connection-establishment failure (`ClientConnectorError`) to
ConnectError, low-level socket/OS failure (`ClientOSError`) to
NetworkError, unexpected peer disconnect (`ServerDisconnectedError`) to
RemoteProtocolError, invalid HTTP framing (`ClientResponseError`) to
ProtocolError, truncated/corrupted payload (`ClientPayloadError`) to
ReadError, engine-internal timeout (`asyncio.TimeoutError`) to
TimeoutException, any other engine client error to NetworkError as the
generic fallback — with the original error preserved as the cause and its
text as the message; the chain is most-specific-first: a
`ClientConnectorError` also satisfies the `ClientOSError` check yet maps
to ConnectError; and any streaming error while iterating the response body
maps to NetworkError. -/
theorem c7_engine_errors_mapped_to_taxonomy :
    (∀ m : String,
      (map_request_error (.clientConnectorError m)).kind = .connectError ∧
      (map_request_error (.clientOSError m)).kind = .networkError ∧
      (map_request_error (.serverDisconnectedError m)).kind
        = .remoteProtocolError ∧
      (map_request_error (.clientResponseError m)).kind = .protocolError ∧
      (map_request_error (.clientPayloadError m)).kind = .readError ∧
      (map_request_error (.asyncioTimeout m)).kind = .timeoutException ∧
      (map_request_error (.otherClientError m)).kind = .networkError ∧
      isClientOSError (.clientConnectorError m) = true) ∧
    (∀ exc : AioError, (map_stream_error exc).kind = .networkError) ∧
    (∀ exc : AioError,
      (map_request_error exc).cause = exc ∧
      (map_request_error exc).message = str_exc exc ∧
      (map_stream_error exc).cause = exc ∧
      (map_stream_error exc).message = str_exc exc) ∧
    (∀ (exc : AioError) (r : Request),
      handle_async_request (fun _ => .failure exc) r
        = .error (map_request_error exc)) := by
  refine ⟨fun m => ⟨rfl, rfl, rfl, rfl, rfl, rfl, rfl, rfl⟩,
          fun exc => rfl,
          fun exc => ⟨?_, ?_, rfl, rfl⟩,
          fun exc r => rfl⟩
  · cases exc <;> rfl
  · cases exc <;> rfl

/-- C9: every engine call issued by `handle_async_request` carries
`allow_redirects=False`, and response translation passes the status code
through unchanged; in particular an engine response with status 302 and a
`Location` header comes back as that 302 response, not a followed
redirect. -/
theorem c9_redirects_disabled_status_passthrough :
    (∀ r : Request, (build_engine_call r).allow_redirects = false) ∧
    (∀ er : EngineResponse, (translate_response er).status_code = er.status) ∧
    (handle_async_request (fun _ => .success redirect_302_response)
        example_request = .ok (translate_response redirect_302_response)) ∧
    ((translate_response redirect_302_response).status_code = 302) ∧
    ((translate_response redirect_302_response).headers
      = [(ascii_encode "Location", ascii_encode "http://example.org/next")]) :=
  ⟨fun r => rfl, fun er => rfl, rfl, rfl, rfl⟩

/-- C10: construction swallows arbitrary extra keyword arguments via
`**kwargs` and never reads them — the result with any extra keyword
arguments is exactly the result with none, and in particular no error is
ever raised for them. -/
theorem c10_extra_kwargs_ignored (verify : Bool) (cert : Option String)
    (trust_env http1 http2 : Bool) (limits : Limits) (proxy : Option Proxy)
    (socket_options : Option String) (avail : Bool)
    (kwargs : List (String × String)) :
    AioHTTPTransport_init verify cert trust_env http1 http2 limits proxy
        socket_options avail kwargs
      = AioHTTPTransport_init verify cert trust_env http1 http2 limits proxy
          socket_options avail [] := rfl

end HttpxAiohttp
